import Mathlib

/-!
Verification of the ModularPlantCVPipelinesMPS core: a shallow embedding of
the pipeline architecture (channel identifiers, stage compatibility, the
`Format` execution loop, `Consolidation` lookups, and the two segmentation
stages' control logic) translated from `Pipeline.py`, `Stage.py`,
`StageChannel.py`, `StageConfig.py` and `DataTypes.py`.

Images (NumPy arrays) are abstracted as natural-number identifiers; all
external PlantCV collaborators (clustering, ROI intersection, contour
composition) are passed in as function parameters so that theorems quantify
over every possible collaborator behaviour.  Python runtime failures
(IndexError on `stages[0]`, AttributeError on a missing field, TypeError on
a bad keyword argument) are made explicit with `Except PyErr`.
-/

/-- Python runtime errors that the embedded code can raise. -/
inductive PyErr where
  | indexError
  | attributeError
  | typeError
deriving DecidableEq, Repr

/-- `MetaData` from DataTypes.py: timestamp string and path to the RGB file. -/
structure MetaData where
  timestamp : String
  rgbFile : String
deriving DecidableEq, Repr

/-- `RawData` from DataTypes.py: validity flag and the loaded RGB image
(abstracted to a Nat identifier). -/
structure RawData where
  valid : Bool
  rgb : Nat
deriving DecidableEq, Repr

/-- `DataUnit` from DataTypes.py: raw data plus its metadata. -/
structure DataUnit where
  raw : RawData
  meta : MetaData
deriving DecidableEq, Repr

/-- A dynamically typed Python value as it flows through the pipeline:
plain ints (the sentinel `0`), NumPy images, `DataUnit` records, and the
`StageChannel` variants from StageChannel.py (`SingleImageChannel`,
`DoubleImageChannel`, `SnapshotChannel`).  A `SnapshotChannel` holds the
history list of `(stageName, value)` pairs. -/
inductive Obj where
  | int (n : Nat)
  | img (i : Nat)
  | dataUnit (u : DataUnit)
  | singleImage (img : Obj)
  | doubleImage (primary secondary : Obj) (tag : String)
  | snapshot (hist : List (String × Obj))

/-- The `.img` attribute access used by `Consolidation.FindOutput`: only a
`SingleImageChannel` has an `img` field; on every other value Python raises
`AttributeError`. -/
def Obj.imgAttr : Obj → Option Obj
  | .singleImage o => some o
  | _ => none

/-- The `.raw.rgb` attribute access used by `Consolidation.FindOutput` on the
"Disk" entry: only a `DataUnit` has a `raw` field. -/
def Obj.rawRgbAttr : Obj → Option Nat
  | .dataUnit u => some u.raw.rgb
  | _ => none

/-- The `.meta.rgbFile` attribute access used by `Consolidation.Invoke` for the
`DoubleImageChannel` tag: only a `DataUnit` has a `meta` field. -/
def Obj.metaRgbFileAttr : Obj → Option String
  | .dataUnit u => some u.meta.rgbFile
  | _ => none

/-- The four module-level `CHANNEL_ID` values of StageChannel.py, in the order
the classes are defined (SingleImage, DoubleImage, Snapshot, Segmentation). -/
structure ChannelIds where
  single : Nat
  double : Nat
  snapshot : Nat
  segm : Nat
deriving DecidableEq, Repr

/-- StageChannel.py module initialisation: each class body evaluates
`CHANNEL_ID: int = getrandbits(256)` once per process run.  The run's random
stream is modelled by `g`, mapping the draw index to the drawn value; the four
classes consume draws 0..3 in definition order. -/
def StageChannel.moduleIds (g : Nat → Nat) : ChannelIds :=
  { single := g 0, double := g 1, snapshot := g 2, segm := g 3 }

/-- The loop body of `Pipeline.IsCompatible` (Pipeline.py lines 53-59): walk
the remaining stages, failing as soon as the next stage's input id is neither
the Snapshot id nor the current stage's output id.  A stage is represented by
its `GetInterfaceIDs` pair `(inId, outId)`. -/
def Pipeline.compatLoop (snapId : Nat) : Nat × Nat → List (Nat × Nat) → Bool
  | _, [] => true
  | curr, nxt :: rest =>
      if nxt.1 ≠ snapId ∧ curr.2 ≠ nxt.1 then false
      else Pipeline.compatLoop snapId nxt rest

/-- `Pipeline.IsCompatible` (Pipeline.py lines 50-60).  The first statement is
`curr = stages[0]`, which raises `IndexError` on an empty list; otherwise the
pairwise loop runs and a Bool is returned. -/
def Pipeline.IsCompatible (snapId : Nat) : List (Nat × Nat) → Except PyErr Bool
  | [] => .error .indexError
  | s :: rest => .ok (Pipeline.compatLoop snapId s rest)

/-- The spec's pairwise compatibility relation for consecutive stages:
`inId == Snapshot.ID OR outId == inId`. -/
def specCompatible (snapId : Nat) (a b : Nat × Nat) : Prop :=
  b.1 = snapId ∨ a.2 = b.1

/-- A pipeline stage as `Pipeline.Format` sees it: the `GetInterfaceIDs` pair,
the constant `GetName` string, and the `Invoke` body, which in every concrete
stage of Stage.py returns the pair `(self.GetName(), outChannel)`; here
`invoke` is the channel component of that pair. -/
structure StageM where
  inId : Nat
  outId : Nat
  name : String
  invoke : Obj → Obj

/-- The stage loop of `Pipeline.Format` (Pipeline.py lines 79-84): for each
stage, if its input id is the Snapshot id the running channel is replaced by a
fresh `SnapshotChannel` over the live history, the stage is invoked, its
`(name, outChannel)` pair is appended to the history, and the output channel
is threaded to the next iteration. -/
def Pipeline.formatLoop (snapId : Nat) :
    List StageM → Obj → List (String × Obj) → List (String × Obj)
  | [], _, intmed => intmed
  | s :: rest, inData, intmed =>
      let cIn := if s.inId = snapId then Obj.snapshot intmed else inData
      let out := s.invoke cIn
      Pipeline.formatLoop snapId rest out (intmed ++ [(s.name, out)])

/-- The dynamically typed return value of `Pipeline.Format`: the function
returns the Python int `0` for an invalid unit (line 76) and a
`FormattedData` record otherwise (line 85). -/
inductive FormatResult where
  | int (n : Nat)
  | formatted (base : RawData) (proc : List (String × Obj))

/-- The `base` field of a `FormattedData` result, `none` on the sentinel int. -/
def FormatResult.baseOf : FormatResult → Option RawData
  | .int _ => none
  | .formatted b _ => some b

/-- The `proc` history of a `FormattedData` result, `[]` on the sentinel int. -/
def FormatResult.procOf : FormatResult → List (String × Obj)
  | .int _ => []
  | .formatted _ p => p

/-- `Pipeline.Format` (Pipeline.py lines 73-85): return `0` when
`data.raw.valid` is false; otherwise start from
`SingleImageChannel(data.raw.rgb)` and the history `[("Disk", data)]`, run
every configured stage through the loop, and return
`FormattedData(base=data.raw, proc=history)`. -/
def Pipeline.Format (snapId : Nat) (stages : List StageM) (data : DataUnit) :
    FormatResult :=
  if data.raw.valid = false then FormatResult.int 0
  else
    FormatResult.formatted data.raw
      (Pipeline.formatLoop snapId stages (Obj.singleImage (Obj.img data.raw.rgb))
        [("Disk", Obj.dataUnit data)])

/-- `Pipeline.FormatSet` (Pipeline.py lines 103-111): append `Format(unit)`
for every unit of the input list, in order, with no filtering. -/
def Pipeline.FormatSet (snapId : Nat) (stages : List StageM)
    (data : List DataUnit) : List FormatResult :=
  data.map (Pipeline.Format snapId stages)

/-- `ConsolidationConfig` from StageConfig.py: the stage names to group and
the output channel id to consolidate into. -/
structure ConsolidationConfig where
  stageNames : List String
  outChannelId : Nat

/-- Python list indexing `xs[i]`: raises `IndexError` when out of range. -/
def pyIndex {α : Type} (xs : List α) (i : Nat) : Except PyErr α :=
  match xs.get? i with
  | some x => .ok x
  | none => .error .indexError

/-- `Consolidation.FindOutput` (Stage.py lines 260-267): scan the history for
the first entry whose name matches; for the name "Disk" return the entry's
`raw.rgb`, otherwise the entry's `img` attribute (raising `AttributeError`
when the stored value has no such field).  When no entry matches, the source
returns the Python int `0`. -/
def Consolidation.FindOutput (stageName : String) :
    List (String × Obj) → Except PyErr Obj
  | [] => .ok (Obj.int 0)
  | (n, v) :: rest =>
      if n = stageName then
        if stageName = "Disk" then
          match v.rawRgbAttr with
          | some r => .ok (Obj.img r)
          | none => .error .attributeError
        else
          match v.imgAttr with
          | some o => .ok o
          | none => .error .attributeError
      else Consolidation.FindOutput stageName rest

/-- The `formatted[0][1].meta.rgbFile` expression of Stage.py line 286:
indexing an empty history raises `IndexError`; a first entry whose value is
not a `DataUnit` raises `AttributeError` on `.meta`. -/
def Consolidation.headTag (formatted : List (String × Obj)) : Except PyErr String :=
  match formatted.head? with
  | none => .error .indexError
  | some e =>
      match e.2.metaRgbFileAttr with
      | some t => .ok t
      | none => .error .attributeError

/-- `Consolidation.Invoke` (Stage.py lines 279-286): build a
`SingleImageChannel` when the configured output id equals the SingleImage
channel id, a `DoubleImageChannel` when it equals the DoubleImage channel id,
and fall through both branches (returning Python `None`, modelled as `none`)
for any other id.  Keyword arguments are evaluated left to right, each
`Except.bind` propagating the first raised error. -/
def Consolidation.Invoke (ids : ChannelIds) (cfg : ConsolidationConfig)
    (formatted : List (String × Obj)) : Except PyErr (Option (String × Obj)) :=
  if cfg.outChannelId = ids.single then
    (pyIndex cfg.stageNames 0).bind fun n0 =>
      (Consolidation.FindOutput n0 formatted).bind fun v =>
        .ok (some ("Consolidation", Obj.singleImage v))
  else if cfg.outChannelId = ids.double then
    (pyIndex cfg.stageNames 0).bind fun n0 =>
      (Consolidation.FindOutput n0 formatted).bind fun p =>
        (pyIndex cfg.stageNames 1).bind fun n1 =>
          (Consolidation.FindOutput n1 formatted).bind fun s =>
            (Consolidation.headTag formatted).bind fun t =>
              .ok (some ("Consolidation", Obj.doubleImage p s t))
  else
    .ok none

/-- One slot of a `RigidSegmentation` output list: either the empty Python
list `[]` appended as a placeholder for a ROI with no covered area
(Stage.py lines 356-357), or a composed contour/mask from
`pcv.object_composition` (lines 359-361). -/
inductive SegItem where
  | empty
  | item (x : Nat)
deriving DecidableEq, Repr

/-- A `SegmentationChannel` from StageChannel.py, generic over the element
types of the contour and mask lists. -/
structure SegmentationChannel (γ μ : Type) where
  contours : List γ
  masks : List μ
  rgb : Nat
  tag : String

/-- The per-ROI loop of `RigidSegmentation.Invoke` (Stage.py lines 349-361).
The external collaborators are abstracted over the fixed image and detected
object set of this run: `area r` is the `pArea` that `pcv.roi_objects`
reports for ROI `r`, and `compC r` / `compM r` are the contour and mask that
`pcv.object_composition` produces for the objects inside ROI `r`. -/
def RigidSegmentation.segLoop (area : Nat → Int) (compC compM : Nat → Nat) :
    List Nat → List SegItem × List SegItem
  | [] => ([], [])
  | r :: rest =>
      if area r ≤ 0 then
        (SegItem.empty :: (RigidSegmentation.segLoop area compC compM rest).1,
         SegItem.empty :: (RigidSegmentation.segLoop area compC compM rest).2)
      else
        (SegItem.item (compC r) :: (RigidSegmentation.segLoop area compC compM rest).1,
         SegItem.item (compM r) :: (RigidSegmentation.segLoop area compC compM rest).2)

/-- `RigidSegmentation.Invoke` (Stage.py lines 333-362) on a `DoubleImage`
input with primary image `primary` and tag `tag`, after the ROI set `rois`
has been produced by `pcv.roi.multi` from the configuration. -/
def RigidSegmentation.Invoke (area : Nat → Int) (compC compM : Nat → Nat)
    (rois : List Nat) (primary : Nat) (tag : String) :
    String × SegmentationChannel SegItem SegItem :=
  let p := RigidSegmentation.segLoop area compC compM rois
  ("RigidSegmentation", ⟨p.1, p.2, primary, tag⟩)

/-- The inner helper `extractSubMasks` of `DBSCANSegmentation.Invoke`
(Stage.py lines 413-421), translated faithfully: the masks whose
re-clustering yields exactly one cluster are appended, but the recursive call
is written `extractSubMasks(topLevelMsk=sbMsks, masks=[])` against the
parameter name `topLvlMask`, so reaching the else branch raises `TypeError`
(unexpected keyword argument) before the callee runs. -/
def DBSCANSegmentation.extractSubMasks (cluster : Nat → List Nat) :
    List Nat → List Nat → Except PyErr (List Nat)
  | [], masks => .ok masks
  | m :: rest, masks =>
      if (cluster m).length = 1 then
        DBSCANSegmentation.extractSubMasks cluster rest (masks ++ [m])
      else .error .typeError

/-- `DBSCANSegmentation.Invoke` (Stage.py lines 409-428): run
`pcv.spatial_clustering` (abstracted as `cluster`) on the secondary mask
image, then — without ever calling `extractSubMasks` — append every top-level
cluster mask unchanged together with its `pcv.roi.from_binary_image` contour
(abstracted as `fromBin`). -/
def DBSCANSegmentation.Invoke (cluster : Nat → List Nat)
    (fromBin : Nat → Nat → Nat) (primary secondary : Nat) (tag : String) :
    String × SegmentationChannel Nat Nat :=
  let cMsks := cluster secondary
  ("DBSCANSegmentation", ⟨cMsks.map (fromBin primary), cMsks, primary, tag⟩)

/-- Modelled from the spec: the refinement policy of §4.6 that
`DBSCANSegmentation.Invoke` is claimed to apply to its top-level candidate
masks — re-cluster each mask; a mask whose re-clustering yields exactly one
cluster is accepted unchanged, otherwise recurse into the sub-clusters and
flatten the stable leaves.  The spec enforces no depth bound, so a fuel
argument makes the recursion total; all concrete uses give enough fuel. -/
def extractSubMasksSpec (cluster : Nat → List Nat) :
    Nat → List Nat → List Nat
  | 0, _ => []
  | fuel + 1, masks =>
      masks.foldr (fun m acc =>
        (if (cluster m).length = 1 then [m]
         else extractSubMasksSpec cluster fuel (cluster m)) ++ acc) []

/-- A concrete clustering collaborator used to exhibit the unexercised
refinement: the secondary image 10 splits into masks 1 and 2; mask 1 splits
further into 3 and 4; every other mask is stable (one cluster). -/
def exCluster : Nat → List Nat :=
  fun n => if n = 10 then [1, 2] else if n = 1 then [3, 4] else [n + 100]

/-- A concrete identity-like stage for witnesses. -/
def stageEx : StageM :=
  { inId := 0, outId := 1, name := "WhiteBalance", invoke := fun o => o }

/-- A concrete `pArea` collaborator for witnesses: ROI 7 has no covered area. -/
def areaEx : Nat → Int := fun r => if r = 7 then 0 else 1

/-- A concrete contour-composition collaborator for witnesses. -/
def compCEx : Nat → Nat := fun r => r + 1

/-- A concrete mask-composition collaborator for witnesses. -/
def compMEx : Nat → Nat := fun r => r + 2

theorem except_ok_bind {ε α β : Type} (a : α) (f : α → Except ε β) :
    (Except.ok a : Except ε α).bind f = f a := rfl

theorem Pipeline.compatLoop_iff (snapId : Nat) (s : Nat × Nat)
    (rest : List (Nat × Nat)) :
    Pipeline.compatLoop snapId s rest = true ↔
      List.Chain' (specCompatible snapId) (s :: rest) := by
  induction rest generalizing s with
  | nil => simp [Pipeline.compatLoop]
  | cons nxt rest ih =>
      rw [List.chain'_cons]
      show (if nxt.1 ≠ snapId ∧ s.2 ≠ nxt.1 then false
            else Pipeline.compatLoop snapId nxt rest) = true ↔ _
      by_cases h : nxt.1 ≠ snapId ∧ s.2 ≠ nxt.1
      · rw [if_pos h]
        constructor
        · intro hF; exact absurd hF (by decide)
        · rintro ⟨hp, _⟩
          rcases hp with hp | hp
          · exact absurd hp h.1
          · exact absurd hp h.2
      · rw [if_neg h, ih]
        constructor
        · intro hc
          refine ⟨?_, hc⟩
          rcases not_and_or.mp h with h1 | h2
          · exact Or.inl (not_not.mp h1)
          · exact Or.inr (not_not.mp h2)
        · rintro ⟨_, hc⟩; exact hc

/-- Structure of the `Format` stage loop: the final history is the initial
history followed by one appended entry per stage, in stage order, each entry
labelled with the corresponding stage's name. -/
theorem Pipeline.formatLoop_structure (snapId : Nat) :
    ∀ (stages : List StageM) (inData : Obj) (intmed : List (String × Obj)),
      ∃ outs : List (String × Obj),
        Pipeline.formatLoop snapId stages inData intmed = intmed ++ outs ∧
        outs.length = stages.length ∧
        (∀ i (h1 : i < outs.length) (h2 : i < stages.length),
          (outs.get ⟨i, h1⟩).1 = (stages.get ⟨i, h2⟩).name) := by
  intro stages
  induction stages with
  | nil =>
      intro inData intmed
      exact ⟨[], by simp [Pipeline.formatLoop], by simp, by intro i h1; simp at h1⟩
  | cons s rest ih =>
      intro inData intmed
      rw [Pipeline.formatLoop]
      obtain ⟨outs, heq, hlen, hname⟩ :=
        ih (s.invoke (if s.inId = snapId then Obj.snapshot intmed else inData))
          (intmed ++ [(s.name, s.invoke (if s.inId = snapId then Obj.snapshot intmed else inData))])
      refine ⟨(s.name, s.invoke (if s.inId = snapId then Obj.snapshot intmed else inData)) :: outs,
        ?_, by simp [hlen], ?_⟩
      · rw [heq]; simp
      · intro i h1 h2
        cases i with
        | zero => simp
        | succ j =>
            simp only [List.get_cons_succ]
            exact hname j (by simpa using h1) (by simpa using h2)

/-- `Format` on an invalid unit returns the sentinel int 0. -/
theorem Pipeline.format_invalid (snapId : Nat) (stages : List StageM)
    (data : DataUnit) (h : data.raw.valid = false) :
    Pipeline.Format snapId stages data = FormatResult.int 0 := by
  unfold Pipeline.Format
  rw [h]
  simp

/-- `Format` on a valid unit returns a `FormattedData` whose history starts
with the synthetic "Disk" entry and has one named entry per stage. -/
theorem Pipeline.format_valid (snapId : Nat) (stages : List StageM)
    (data : DataUnit) (h : data.raw.valid = true) :
    ∃ outs : List (String × Obj),
      Pipeline.Format snapId stages data =
        FormatResult.formatted data.raw (("Disk", Obj.dataUnit data) :: outs) ∧
      outs.length = stages.length ∧
      (∀ i (h1 : i < outs.length) (h2 : i < stages.length),
        (outs.get ⟨i, h1⟩).1 = (stages.get ⟨i, h2⟩).name) := by
  obtain ⟨outs, heq, hlen, hname⟩ :=
    Pipeline.formatLoop_structure snapId stages
      (Obj.singleImage (Obj.img data.raw.rgb)) [("Disk", Obj.dataUnit data)]
  refine ⟨outs, ?_, hlen, hname⟩
  unfold Pipeline.Format
  rw [h]
  simp only [Bool.true_eq_false, if_false]
  rw [heq]
  simp

/-- `FindOutput` is the branch of the first entry found by name, and the
sentinel int 0 when no entry has the requested name. -/
theorem Consolidation.findOutput_eq_find (stageName : String)
    (formatted : List (String × Obj)) :
    Consolidation.FindOutput stageName formatted =
      match formatted.find? (fun e => e.1 == stageName) with
      | none => Except.ok (Obj.int 0)
      | some e =>
          if stageName = "Disk" then
            match e.2.rawRgbAttr with
            | some r => Except.ok (Obj.img r)
            | none => Except.error PyErr.attributeError
          else
            match e.2.imgAttr with
            | some o => Except.ok o
            | none => Except.error PyErr.attributeError := by
  induction formatted with
  | nil => rfl
  | cons e rest ih =>
      cases e with
      | mk n v =>
          rw [Consolidation.FindOutput]
          by_cases h : n = stageName
          · rw [List.find?_cons_of_pos _ (by simpa using h), if_pos h]
          · rw [List.find?_cons_of_neg _ (by simpa using h), if_neg h]
            exact ih

/-- The rigid-segmentation loop emits exactly one contour and one mask per
ROI, positionally: slot `i` is the empty placeholder when ROI `i` has no
covered area, and the composed contour/mask otherwise. -/
theorem RigidSegmentation.segLoop_spec (area : Nat → Int) (compC compM : Nat → Nat) :
    ∀ rois : List Nat,
      (RigidSegmentation.segLoop area compC compM rois).1.length = rois.length ∧
      (RigidSegmentation.segLoop area compC compM rois).2.length = rois.length ∧
      ∀ i (h : i < rois.length)
        (hc : i < (RigidSegmentation.segLoop area compC compM rois).1.length)
        (hm : i < (RigidSegmentation.segLoop area compC compM rois).2.length),
        (area (rois.get ⟨i, h⟩) ≤ 0 →
          (RigidSegmentation.segLoop area compC compM rois).1.get ⟨i, hc⟩ = SegItem.empty ∧
          (RigidSegmentation.segLoop area compC compM rois).2.get ⟨i, hm⟩ = SegItem.empty) ∧
        (0 < area (rois.get ⟨i, h⟩) →
          (RigidSegmentation.segLoop area compC compM rois).1.get ⟨i, hc⟩ =
            SegItem.item (compC (rois.get ⟨i, h⟩)) ∧
          (RigidSegmentation.segLoop area compC compM rois).2.get ⟨i, hm⟩ =
            SegItem.item (compM (rois.get ⟨i, h⟩))) := by
  intro rois
  induction rois with
  | nil =>
      refine ⟨rfl, rfl, ?_⟩
      intro i h
      simp at h
  | cons r rest ih =>
      obtain ⟨ihc, ihm, ihget⟩ := ih
      by_cases ha : area r ≤ 0
      · have hred : RigidSegmentation.segLoop area compC compM (r :: rest) =
            (SegItem.empty :: (RigidSegmentation.segLoop area compC compM rest).1,
             SegItem.empty :: (RigidSegmentation.segLoop area compC compM rest).2) := by
          rw [RigidSegmentation.segLoop, if_pos ha]
        rw [hred]
        refine ⟨by simp [ihc], by simp [ihm], ?_⟩
        intro i h hc hm
        cases i with
        | zero =>
            refine ⟨fun _ => ⟨rfl, rfl⟩, fun hpos => absurd ha (by simpa using hpos)⟩
        | succ j =>
            have hj : j < rest.length := by simpa using h
            have hjc : j < (RigidSegmentation.segLoop area compC compM rest).1.length := by
              simpa using hc
            have hjm : j < (RigidSegmentation.segLoop area compC compM rest).2.length := by
              simpa using hm
            simpa using ihget j hj hjc hjm
      · have hred : RigidSegmentation.segLoop area compC compM (r :: rest) =
            (SegItem.item (compC r) :: (RigidSegmentation.segLoop area compC compM rest).1,
             SegItem.item (compM r) :: (RigidSegmentation.segLoop area compC compM rest).2) := by
          rw [RigidSegmentation.segLoop, if_neg ha]
        rw [hred]
        refine ⟨by simp [ihc], by simp [ihm], ?_⟩
        intro i h hc hm
        cases i with
        | zero =>
            exact ⟨fun hle => absurd hle ha, fun _ => ⟨rfl, rfl⟩⟩
        | succ j =>
            have hj : j < rest.length := by simpa using h
            have hjc : j < (RigidSegmentation.segLoop area compC compM rest).1.length := by
              simpa using hc
            have hjm : j < (RigidSegmentation.segLoop area compC compM rest).2.length := by
              simpa using hm
            simpa using ihget j hj hjc hjm

/-- C1 counterexample: on the empty stage sequence, `IsCompatible` does not
report incompatibility — `stages[0]` raises `IndexError` before any
compatibility verdict is produced. -/
theorem isCompatible_empty_raises :
    Pipeline.IsCompatible 0 [] = Except.error PyErr.indexError ∧
    Pipeline.IsCompatible 0 [] ≠ Except.ok false :=
  ⟨rfl, fun h => nomatch h⟩

/-- C1 (amended): on a non-empty stage sequence, `IsCompatible` returns a
Bool, and it returns true exactly when every consecutive stage pair
`(s[i], s[i+1])` satisfies `inId == Snapshot.ID OR outId == inId`; in
particular a single-stage sequence always yields true.  (On the empty
sequence the check instead raises IndexError, per the counterexample.) -/
theorem isCompatible_nonempty_iff_pairwise (snapId : Nat) (s : Nat × Nat)
    (rest : List (Nat × Nat)) :
    (Pipeline.IsCompatible snapId (s :: rest) = Except.ok true ↔
      List.Chain' (specCompatible snapId) (s :: rest)) ∧
    (Pipeline.IsCompatible snapId (s :: rest) = Except.ok false ↔
      ¬ List.Chain' (specCompatible snapId) (s :: rest)) ∧
    Pipeline.IsCompatible snapId [s] = Except.ok true := by
  have hloop := Pipeline.compatLoop_iff snapId s rest
  have hdef : Pipeline.IsCompatible snapId (s :: rest) =
      Except.ok (Pipeline.compatLoop snapId s rest) := rfl
  refine ⟨?_, ?_, rfl⟩
  · rw [hdef]
    constructor
    · intro h
      exact hloop.mp (Except.ok.inj h)
    · intro h
      rw [hloop.mpr h]
  · rw [hdef]
    constructor
    · intro h hchain
      have := hloop.mpr hchain
      rw [this] at h
      exact absurd (Except.ok.inj h) (by decide)
    · intro h
      cases hb : Pipeline.compatLoop snapId s rest with
      | true => exact absurd (hloop.mp hb) h
      | false => rfl

/-- C2: `DBSCANSegmentation.Invoke` emits the top-level clustering masks
unrefined — with the collaborator `exCluster` (secondary image 10 clusters
into masks 1, 2 and mask 1 re-clusters into 3, 4) the code returns `[1, 2]`,
while the spec's refinement policy yields the stable leaves `[3, 4, 2]`;
moreover the source's own `extractSubMasks`, if it were called on these
masks, would raise `TypeError` at its misspelled recursive keyword argument
rather than refine anything. -/
theorem dbscan_invoke_skips_refinement :
    (DBSCANSegmentation.Invoke exCluster (fun _ m => m) 0 10 "t").2.masks = [1, 2] ∧
    extractSubMasksSpec exCluster 3 [1, 2] = [3, 4, 2] ∧
    ([1, 2] : List Nat) ≠ [3, 4, 2] ∧
    DBSCANSegmentation.extractSubMasks exCluster [1, 2] [] =
      Except.error PyErr.typeError := by
  refine ⟨rfl, ?_, by decide, ?_⟩
  · rfl
  · rfl

/-- C4: on a history with no entry of the requested name,
`Consolidation.FindOutput` returns the Python int `0` — a sentinel coerced
into an image position — rather than reporting a lookup failure. -/
theorem findOutput_missing_name_returns_zero :
    Consolidation.FindOutput "BinaryMask" [] = Except.ok (Obj.int 0) ∧
    Consolidation.FindOutput "BinaryMask"
        [("Disk", Obj.dataUnit ⟨⟨true, 3⟩, ⟨"ts", "p.jpg"⟩⟩)] =
      Except.ok (Obj.int 0) := by
  constructor
  · rfl
  · rfl

/-- C9: the four `CHANNEL_ID` values are fresh 256-bit random draws at every
module import, so they are not stable across process runs (two runs whose
random streams differ produce different identifiers), and pairwise
distinctness is not guaranteed either (a colliding stream yields equal
identifiers for distinct variants). -/
theorem channel_ids_random_per_run :
    StageChannel.moduleIds (fun i => i) ≠ StageChannel.moduleIds (fun i => i + 1) ∧
    (StageChannel.moduleIds (fun _ => 0)).single =
      (StageChannel.moduleIds (fun _ => 0)).double := by
  constructor
  · intro h
    have := congrArg ChannelIds.single h
    simp [StageChannel.moduleIds] at this
  · rfl

/-- C3: `RigidSegmentation.Invoke` emits exactly one contour and one mask per
configured ROI, output index `i` corresponding to ROI `i`; a ROI whose
intersection with the detected object set has no covered area yields the
empty placeholder at its position instead of being omitted. -/
theorem rigidSegmentation_positional_invariant (area : Nat → Int)
    (compC compM : Nat → Nat) (rois : List Nat) (primary : Nat) (tag : String) :
    (RigidSegmentation.Invoke area compC compM rois primary tag).2.contours.length =
      rois.length ∧
    (RigidSegmentation.Invoke area compC compM rois primary tag).2.masks.length =
      rois.length ∧
    ∀ i (h : i < rois.length)
      (hc : i < (RigidSegmentation.Invoke area compC compM rois primary tag).2.contours.length)
      (hm : i < (RigidSegmentation.Invoke area compC compM rois primary tag).2.masks.length),
      (area (rois.get ⟨i, h⟩) ≤ 0 →
        (RigidSegmentation.Invoke area compC compM rois primary tag).2.contours.get ⟨i, hc⟩ =
          SegItem.empty ∧
        (RigidSegmentation.Invoke area compC compM rois primary tag).2.masks.get ⟨i, hm⟩ =
          SegItem.empty) ∧
      (0 < area (rois.get ⟨i, h⟩) →
        (RigidSegmentation.Invoke area compC compM rois primary tag).2.contours.get ⟨i, hc⟩ =
          SegItem.item (compC (rois.get ⟨i, h⟩)) ∧
        (RigidSegmentation.Invoke area compC compM rois primary tag).2.masks.get ⟨i, hm⟩ =
          SegItem.item (compM (rois.get ⟨i, h⟩))) :=
  RigidSegmentation.segLoop_spec area compC compM rois

/-- C3 witness: with ROI 7 uncovered and ROI 8 covered, position 0 is the
empty placeholder and position 1 the composed mask. -/
theorem rigidSegmentation_positional_witness :
    (RigidSegmentation.Invoke areaEx compCEx compMEx [7, 8] 5 "t").2.contours.get? 0 =
      some SegItem.empty ∧
    (RigidSegmentation.Invoke areaEx compCEx compMEx [7, 8] 5 "t").2.masks.get? 1 =
      some (SegItem.item 10) := by
  obtain ⟨hc, hm, hget⟩ :=
    rigidSegmentation_positional_invariant areaEx compCEx compMEx [7, 8] 5 "t"
  have h0 := (hget 0 (by decide) (by rw [hc]; decide) (by rw [hm]; decide)).1 (by decide)
  have h1 := (hget 1 (by decide) (by rw [hc]; decide) (by rw [hm]; decide)).2 (by decide)
  constructor
  · rw [List.get?_eq_get (by rw [hc]; decide)]
    exact congrArg some h0.1
  · rw [List.get?_eq_get (by rw [hm]; decide)]
    exact congrArg some h1.2

/-- C5 counterexample: a set with one invalid unit yields one result (the
sentinel int 0), not zero results — invalid units are not dropped from the
output of `FormatSet`. -/
theorem formatSet_keeps_invalid_units :
    Pipeline.FormatSet 0 [] [⟨⟨false, 0⟩, ⟨"ts", "p.jpg"⟩⟩] = [FormatResult.int 0] ∧
    (Pipeline.FormatSet 0 [] [⟨⟨false, 0⟩, ⟨"ts", "p.jpg"⟩⟩]).length = 1 ∧
    List.countP (fun u => u.raw.valid) [(⟨⟨false, 0⟩, ⟨"ts", "p.jpg"⟩⟩ : DataUnit)] = 0 :=
  ⟨rfl, rfl, rfl⟩

/-- C5 (amended): `FormatSet` over N units returns exactly N results, one per
unit in input order: the i-th result is `Format` of the i-th unit, which is a
`FormattedData` based on that unit's raw data when the unit is valid and the
sentinel int 0 when it is invalid; invalid units are not filtered out. -/
theorem formatSet_per_unit (snapId : Nat) (stages : List StageM)
    (data : List DataUnit) :
    (Pipeline.FormatSet snapId stages data).length = data.length ∧
    ∀ i (h1 : i < (Pipeline.FormatSet snapId stages data).length)
      (h2 : i < data.length),
      (Pipeline.FormatSet snapId stages data).get ⟨i, h1⟩ =
        Pipeline.Format snapId stages (data.get ⟨i, h2⟩) ∧
      ((data.get ⟨i, h2⟩).raw.valid = false →
        (Pipeline.FormatSet snapId stages data).get ⟨i, h1⟩ = FormatResult.int 0) ∧
      ((data.get ⟨i, h2⟩).raw.valid = true →
        ((Pipeline.FormatSet snapId stages data).get ⟨i, h1⟩).baseOf =
          some (data.get ⟨i, h2⟩).raw) := by
  refine ⟨by simp [Pipeline.FormatSet], ?_⟩
  intro i h1 h2
  have hmap : (Pipeline.FormatSet snapId stages data).get ⟨i, h1⟩ =
      Pipeline.Format snapId stages (data.get ⟨i, h2⟩) := by
    simp [Pipeline.FormatSet, List.get_map]
  refine ⟨hmap, ?_, ?_⟩
  · intro hinv
    rw [hmap, Pipeline.format_invalid snapId stages _ hinv]
  · intro hval
    obtain ⟨outs, heq, _, _⟩ :=
      Pipeline.format_valid snapId stages (data.get ⟨i, h2⟩) hval
    rw [hmap, heq]
    rfl

/-- C5 witness: the single-invalid-unit set evaluated through the amended
theorem. -/
theorem formatSet_per_unit_witness :
    (Pipeline.FormatSet 0 [] [(⟨⟨false, 0⟩, ⟨"ts", "p.jpg"⟩⟩ : DataUnit)]).get? 0 =
      some (FormatResult.int 0) := by
  have h := formatSet_per_unit 0 [] [(⟨⟨false, 0⟩, ⟨"ts", "p.jpg"⟩⟩ : DataUnit)]
  have hi := (h.2 0 (by rw [h.1]; decide) (by decide)).2.1 rfl
  rw [List.get?_eq_get (by rw [h.1]; decide)]
  exact congrArg some hi

/-- C6: `Format` on an invalid unit short-circuits: the result is the
sentinel int 0, it does not depend on the configured stages (no stage is
invoked), and it is distinguishable from every successful `FormattedData`
result. -/
theorem format_invalid_short_circuits (snapId : Nat) (stages : List StageM)
    (data : DataUnit) (h : data.raw.valid = false) :
    Pipeline.Format snapId stages data = FormatResult.int 0 ∧
    Pipeline.Format snapId stages data = Pipeline.Format snapId [] data ∧
    ∀ (b : RawData) (p : List (String × Obj)),
      Pipeline.Format snapId stages data ≠ FormatResult.formatted b p := by
  have h1 := Pipeline.format_invalid snapId stages data h
  refine ⟨h1, ?_, ?_⟩
  · rw [h1, Pipeline.format_invalid snapId [] data h]
  · intro b p hc
    rw [h1] at hc
    exact FormatResult.noConfusion hc

/-- C6 witness: an invalid unit through a one-stage pipeline. -/
theorem format_invalid_short_circuits_witness :
    Pipeline.Format 5 [stageEx] ⟨⟨false, 0⟩, ⟨"ts", "p.jpg"⟩⟩ = FormatResult.int 0 :=
  (format_invalid_short_circuits 5 [stageEx] ⟨⟨false, 0⟩, ⟨"ts", "p.jpg"⟩⟩ rfl).1

/-- C7: `Format` on a valid unit returns a `FormattedData` whose base is the
unit's raw data, whose history head is the synthetic "Disk" entry holding the
unit (hence the original raw image), and whose history continues with exactly
one entry per configured stage, in execution order, labelled with that
stage's name. -/
theorem format_valid_history_invariant (snapId : Nat) (stages : List StageM)
    (data : DataUnit) (h : data.raw.valid = true) :
    (Pipeline.Format snapId stages data).baseOf = some data.raw ∧
    (Pipeline.Format snapId stages data).procOf.head? =
      some ("Disk", Obj.dataUnit data) ∧
    (Obj.dataUnit data).rawRgbAttr = some data.raw.rgb ∧
    (Pipeline.Format snapId stages data).procOf.length = stages.length + 1 ∧
    ∀ i (h1 : i + 1 < (Pipeline.Format snapId stages data).procOf.length)
      (h2 : i < stages.length),
      ((Pipeline.Format snapId stages data).procOf.get ⟨i + 1, h1⟩).1 =
        (stages.get ⟨i, h2⟩).name := by
  obtain ⟨outs, heq, hlen, hname⟩ := Pipeline.format_valid snapId stages data h
  rw [heq]
  refine ⟨rfl, rfl, rfl, ?_, ?_⟩
  · show (("Disk", Obj.dataUnit data) :: outs).length = stages.length + 1
    simp [hlen]
  · intro i h1 h2
    show ((("Disk", Obj.dataUnit data) :: outs).get ⟨i + 1, h1⟩).1 =
      (stages.get ⟨i, h2⟩).name
    rw [List.get_cons_succ]
    apply hname

/-- C7 witness: a valid unit through the one-stage pipeline has the "Disk"
head entry and a two-entry history. -/
theorem format_valid_history_invariant_witness :
    (Pipeline.Format 5 [stageEx] ⟨⟨true, 4⟩, ⟨"ts", "p.jpg"⟩⟩).procOf.head? =
      some ("Disk", Obj.dataUnit ⟨⟨true, 4⟩, ⟨"ts", "p.jpg"⟩⟩) ∧
    (Pipeline.Format 5 [stageEx] ⟨⟨true, 4⟩, ⟨"ts", "p.jpg"⟩⟩).procOf.length = 2 :=
  ⟨(format_valid_history_invariant 5 [stageEx] ⟨⟨true, 4⟩, ⟨"ts", "p.jpg"⟩⟩ rfl).2.1,
   (format_valid_history_invariant 5 [stageEx] ⟨⟨true, 4⟩, ⟨"ts", "p.jpg"⟩⟩ rfl).2.2.2.1⟩

/-- C8: a Consolidation stage configured with
`stageNames = ["Disk", "BinaryMask"]` and the DoubleImage output channel, on
a history whose first "Disk" entry stores a `DataUnit` and whose first
"BinaryMask" entry stores a single-image channel, returns a
`DoubleImageChannel` whose primary is the Disk unit's raw image, whose
secondary is the BinaryMask entry's image, and whose tag is the first
history entry's `DataUnit` source path. -/
theorem consolidation_double_image_lookup (ids : ChannelIds)
    (cfg : ConsolidationConfig) (formatted : List (String × Obj))
    (nh nd nb : String) (u0 u : DataUnit) (v : Obj)
    (hne : ids.single ≠ ids.double)
    (hcfg1 : cfg.stageNames = ["Disk", "BinaryMask"])
    (hcfg2 : cfg.outChannelId = ids.double)
    (hhead : formatted.head? = some (nh, Obj.dataUnit u0))
    (hdisk : formatted.find? (fun e => e.1 == "Disk") = some (nd, Obj.dataUnit u))
    (hbin : formatted.find? (fun e => e.1 == "BinaryMask") =
      some (nb, Obj.singleImage v)) :
    Consolidation.Invoke ids cfg formatted =
      Except.ok (some ("Consolidation",
        Obj.doubleImage (Obj.img u.raw.rgb) v u0.meta.rgbFile)) := by
  have hd : Consolidation.FindOutput "Disk" formatted =
      Except.ok (Obj.img u.raw.rgb) := by
    rw [Consolidation.findOutput_eq_find, hdisk]
    rfl
  have hb : Consolidation.FindOutput "BinaryMask" formatted = Except.ok v := by
    rw [Consolidation.findOutput_eq_find, hbin]
    rfl
  have ht : Consolidation.headTag formatted = Except.ok u0.meta.rgbFile := by
    unfold Consolidation.headTag
    rw [hhead]
    rfl
  have hns : ¬ (ids.double = ids.single) := fun hcontr => hne hcontr.symm
  unfold Consolidation.Invoke
  rw [hcfg1, hcfg2, if_neg hns, if_pos rfl]
  simp only [pyIndex, List.get?, except_ok_bind, hd, hb, ht]

/-- C8 witness: a concrete two-entry history consolidated into a
DoubleImage. -/
theorem consolidation_double_image_witness :
    Consolidation.Invoke ⟨1, 2, 3, 4⟩ ⟨["Disk", "BinaryMask"], 2⟩
        [("Disk", Obj.dataUnit ⟨⟨true, 5⟩, ⟨"ts", "path"⟩⟩),
         ("BinaryMask", Obj.singleImage (Obj.img 7))] =
      Except.ok (some ("Consolidation",
        Obj.doubleImage (Obj.img 5) (Obj.img 7) "path")) :=
  consolidation_double_image_lookup ⟨1, 2, 3, 4⟩ ⟨["Disk", "BinaryMask"], 2⟩
    [("Disk", Obj.dataUnit ⟨⟨true, 5⟩, ⟨"ts", "path"⟩⟩),
     ("BinaryMask", Obj.singleImage (Obj.img 7))]
    "Disk" "Disk" "BinaryMask" ⟨⟨true, 5⟩, ⟨"ts", "path"⟩⟩
    ⟨⟨true, 5⟩, ⟨"ts", "path"⟩⟩ (Obj.img 7)
    (by decide) rfl rfl rfl rfl rfl

/-- C10: `Consolidation.Invoke` produces a `(name, channel)` pair only when
the configured output id equals the SingleImage or DoubleImage channel id;
for any other configured id it falls through both branches and returns
Python `None`. -/
theorem consolidation_invoke_branch_totality (ids : ChannelIds)
    (cfg : ConsolidationConfig) (formatted : List (String × Obj)) :
    (cfg.outChannelId ≠ ids.single → cfg.outChannelId ≠ ids.double →
      Consolidation.Invoke ids cfg formatted = Except.ok none) ∧
    (∀ r, Consolidation.Invoke ids cfg formatted = Except.ok (some r) →
      cfg.outChannelId = ids.single ∨ cfg.outChannelId = ids.double) := by
  constructor
  · intro h1 h2
    unfold Consolidation.Invoke
    rw [if_neg h1, if_neg h2]
  · intro r hr
    by_cases hs : cfg.outChannelId = ids.single
    · exact Or.inl hs
    by_cases hdb : cfg.outChannelId = ids.double
    · exact Or.inr hdb
    · unfold Consolidation.Invoke at hr
      rw [if_neg hs, if_neg hdb] at hr
      exact absurd (Except.ok.inj hr) (by simp)

/-- C10 witness: an output id matching neither image channel id yields
`None`. -/
theorem consolidation_invoke_branch_witness :
    Consolidation.Invoke ⟨0, 1, 2, 3⟩ ⟨[], 9⟩ [] = Except.ok none :=
  (consolidation_invoke_branch_totality ⟨0, 1, 2, 3⟩ ⟨[], 9⟩ []).1
    (by decide) (by decide)

/-- C1 witness: a compatible two-stage sequence validates to true. -/
theorem isCompatible_pairwise_witness :
    Pipeline.IsCompatible 0 [(1, 2), (2, 3)] = Except.ok true :=
  (isCompatible_nonempty_iff_pairwise 0 (1, 2) [(2, 3)]).1.mpr
    (List.chain'_cons.mpr ⟨Or.inr rfl, List.chain'_singleton _⟩)
